import Mathlib

/-!
Verification of the fatp-drone subsystem constraint engine and vehicle
state machine against their natural-language specification.

The drone-specific layer (`SubsystemManager`, `VehicleStateMachine`,
`Subsystems.h` name constants) is embedded directly from the repository
headers.  The generic `fat_p::feature::FeatureManager` constraint engine and
the `fat_p::StateMachine` transition mechanics are not part of the repository
sources; they are modelled from the specification (spec sections 4.1 and 4.2)
where noted.
-/

namespace Drone

/-- Relationship kinds of the constraint graph (spec section 3:
Requires, Implies, Conflicts, Preempts; MutuallyExclusiveGroup is a
shorthand that installs Conflicts between every pair). -/
inductive FeatureRelationship where
  | Requires
  | Implies
  | Conflicts
  | Preempts
deriving DecidableEq, Repr

/-- Static registry of subsystem nodes and directed relationship edges. -/
structure FeatureGraph where
  features : List String
  edges : List (String × FeatureRelationship × String)
deriving DecidableEq, Repr

/-- Modelled from the spec: the mutable state of the missing
`fat_p::feature::FeatureManager` — the enabled flag per node, plus the
Preempts inhibit latches `(latchedNode, keyedOnPreemptor)` (spec section 4.1,
Enable step 5: the latch is keyed on the preempting node remaining enabled). -/
structure EngineState where
  enabled : List String
  inhibited : List (String × String)
deriving DecidableEq, Repr

/-- All subsystems disabled, no latches: the state of a freshly constructed
manager. -/
def initState : EngineState := ⟨[], []⟩

/-- `IsEnabled(name)` query. -/
def isEnabledIn (s : EngineState) (name : String) : Bool :=
  s.enabled.contains name

/-- Modelled from the spec: a node is under an active Preempts inhibit latch
when some latch entry names it and the latch's preemptor is still enabled. -/
def isInhibited (s : EngineState) (name : String) : Bool :=
  s.inhibited.any fun p => p.1 == name && s.enabled.contains p.2

/-- Direct `Requires` targets of a node. -/
def requiresOf (g : FeatureGraph) (name : String) : List String :=
  g.edges.filterMap fun e =>
    if e.1 = name ∧ e.2.1 = FeatureRelationship.Requires then some e.2.2 else none

/-- Direct `Implies` targets of a node. -/
def impliesOf (g : FeatureGraph) (name : String) : List String :=
  g.edges.filterMap fun e =>
    if e.1 = name ∧ e.2.1 = FeatureRelationship.Implies then some e.2.2 else none

/-- Modelled from the spec: the currently enabled conflict partners of `name`
(Enable step 4).  Each partner is paired with `true` when the edge is a
`Preempts` edge whose source is `name` (the conflict may be overridden by
force-disabling the partner), and with `false` when it is an ordinary
`Conflicts` rejection or the preempted side of a `Preempts` edge. -/
def enabledConflicts (g : FeatureGraph) (s : EngineState) (name : String) :
    List (String × Bool) :=
  g.edges.filterMap fun e =>
    match e.2.1 with
    | FeatureRelationship.Conflicts =>
        if e.1 = name ∧ isEnabledIn s e.2.2 = true then some (e.2.2, false)
        else if e.2.2 = name ∧ isEnabledIn s e.1 = true then some (e.1, false)
        else none
    | FeatureRelationship.Preempts =>
        if e.1 = name ∧ isEnabledIn s e.2.2 = true then some (e.2.2, true)
        else if e.2.2 = name ∧ isEnabledIn s e.1 = true then some (e.1, false)
        else none
    | _ => none

/-- One expansion step of the reverse-`Requires` closure: add every feature
that requires a current victim. -/
def dependentsStep (g : FeatureGraph) (victims : List String) : List String :=
  victims ++ g.edges.filterMap fun e =>
    match e.2.1 with
    | FeatureRelationship.Requires =>
        if victims.contains e.2.2 && !victims.contains e.1 then some e.1 else none
    | _ => none

/-- Nodes that transitively `Requires` any of the targets, targets included
(bounded iteration; the feature count bounds the closure depth). -/
def revRequiresClosure (g : FeatureGraph) : Nat → List String → List String
  | 0, victims => victims
  | n + 1, victims => revRequiresClosure g n (dependentsStep g victims)

/-- Modelled from the spec: Enable step 5 — force-disable each preempted
target together with everything that transitively requires it, and set the
inhibit latch for all of them keyed on the preempting node. -/
def forcePreempt (g : FeatureGraph) (s : EngineState) (preemptor : String)
    (targets : List String) : EngineState :=
  match targets with
  | [] => s
  | _ =>
    let victims := revRequiresClosure g g.features.length targets
    { enabled := s.enabled.filter fun m => !victims.contains m,
      inhibited := (victims.map fun v => (v, preemptor)) ++ s.inhibited }

/-- Modelled from the spec: Enable step 3 — attempt each listed target in
order with the given single-feature enable `step`; the first failure aborts
with that error (and keeps the partial state). -/
def enableRequired (step : EngineState → String → EngineState × Except String Unit) :
    EngineState → List String → EngineState × Except String Unit
  | s, [] => (s, Except.ok ())
  | s, n :: ns =>
    match step s n with
    | (s1, Except.ok _) => enableRequired step s1 ns
    | (s1, Except.error e) => (s1, Except.error e)

/-- Modelled from the spec: Enable step 7 — enable each implied target with
the given single-feature enable `step`, best-effort; failures do not fail the
outer call. -/
def enableImplied (step : EngineState → String → EngineState × Except String Unit) :
    EngineState → List String → EngineState
  | s, [] => s
  | s, n :: ns => enableImplied step (step s n).1 ns

/-- Modelled from the spec: the missing `FeatureManager::enable` algorithm
(spec section 4.1, Enable steps 1-8): unknown-name rejection, inhibit-latch
rejection, recursive best-effort `Requires` cascade (a failed dependency
aborts the call but keeps nodes already enabled by earlier steps), conflict
check with Preempts override, force-disable of preempted nodes, setting the
enabled flag, and the best-effort `Implies` cascade.  `fuel` bounds the
recursion depth. -/
def enableFeature (g : FeatureGraph) : Nat → EngineState → String →
    EngineState × Except String Unit
  | 0, s, _ => (s, Except.error "recursion depth exceeded")
  | fuel + 1, s, name =>
    if g.features.contains name = false then
      (s, Except.error ("Unknown feature: " ++ name))
    else if isEnabledIn s name then
      (s, Except.ok ())
    else if isInhibited s name then
      (s, Except.error ("Feature is inhibited by an active preempting feature: " ++ name))
    else
      match enableRequired (enableFeature g fuel) s (requiresOf g name) with
      | (s1, Except.error e) => (s1, Except.error e)
      | (s1, Except.ok _) =>
        let confl := enabledConflicts g s1 name
        if confl.any fun p => !p.2 then
          (s1, Except.error ("Conflict: cannot enable " ++ name))
        else
          let s2 := forcePreempt g s1 name (confl.map Prod.fst)
          let s3 : EngineState := ⟨name :: s2.enabled, s2.inhibited⟩
          (enableImplied (enableFeature g fuel) s3 (impliesOf g name), Except.ok ())

/-- True when some currently enabled node has a `Requires` edge into `name`
(Disable step 2). -/
def dependentActive (g : FeatureGraph) (s : EngineState) (name : String) : Bool :=
  g.edges.any fun e =>
    match e.2.1 with
    | FeatureRelationship.Requires => e.2.2 == name && isEnabledIn s e.1
    | _ => false

/-- Modelled from the spec: the missing `FeatureManager::disable` algorithm
(spec section 4.1, Disable steps 1-3): unknown-name rejection,
dependent-active rejection, then clear the enabled flag (clearing an
already-clear flag is an idempotent no-op success). -/
def disableFeature (g : FeatureGraph) (s : EngineState) (name : String) :
    EngineState × Except String Unit :=
  if g.features.contains name = false then
    (s, Except.error ("Unknown feature: " ++ name))
  else if dependentActive g s name then
    (s, Except.error ("Cannot disable " ++ name ++ ": an enabled feature requires it"))
  else
    ({ s with enabled := s.enabled.filter fun m => m != name }, Except.ok ())

/-- All 22 subsystem names in registration order (Subsystems.h constants, in
the order `registerSubsystems` adds them — the same order `enabledSubsystems`
scans). -/
def allFeatureNames : List String :=
  ["IMU", "GPS", "Barometer", "Compass", "OpticalFlow", "Lidar",
   "BatteryMonitor", "ESC", "MotorMix",
   "RCReceiver", "Telemetry", "Datalink",
   "Manual", "Stabilize", "AltHold", "PosHold", "Autonomous", "RTL",
   "Geofence", "Failsafe", "CollisionAvoidance", "EmergencyStop"]

/-- The six flight modes in the fixed scan order of `activeFlightMode`. -/
def flightModes : List String :=
  ["Manual", "Stabilize", "AltHold", "PosHold", "Autonomous", "RTL"]

/-- `addMutuallyExclusiveGroup`: installs `Conflicts` between every pair of
the group (spec section 3, MutuallyExclusiveGroup). -/
def mutexConflicts : List String → List (String × FeatureRelationship × String)
  | [] => []
  | a :: rest =>
    (rest.map fun b => (a, FeatureRelationship.Conflicts, b)) ++ mutexConflicts rest

/-- The drone feature graph exactly as `SubsystemManager::registerSubsystems`,
`registerRelationships` and `registerGroups` build it.  Note that
`registerRelationships` registers `FR::Conflicts` edges (not `Preempts`)
between EmergencyStop and each flight mode. -/
def droneGraph : FeatureGraph where
  features := allFeatureNames
  edges :=
    [("ESC", FeatureRelationship.Requires, "BatteryMonitor"),
     ("MotorMix", FeatureRelationship.Requires, "ESC"),
     ("Failsafe", FeatureRelationship.Requires, "BatteryMonitor"),
     ("Failsafe", FeatureRelationship.Requires, "RCReceiver"),
     ("Stabilize", FeatureRelationship.Requires, "IMU"),
     ("Stabilize", FeatureRelationship.Requires, "Barometer"),
     ("AltHold", FeatureRelationship.Requires, "IMU"),
     ("AltHold", FeatureRelationship.Requires, "Barometer"),
     ("PosHold", FeatureRelationship.Requires, "IMU"),
     ("PosHold", FeatureRelationship.Requires, "Barometer"),
     ("PosHold", FeatureRelationship.Requires, "GPS"),
     ("Autonomous", FeatureRelationship.Requires, "IMU"),
     ("Autonomous", FeatureRelationship.Requires, "Barometer"),
     ("Autonomous", FeatureRelationship.Requires, "GPS"),
     ("Autonomous", FeatureRelationship.Requires, "Datalink"),
     ("Autonomous", FeatureRelationship.Requires, "CollisionAvoidance"),
     ("Autonomous", FeatureRelationship.Implies, "CollisionAvoidance"),
     ("RTL", FeatureRelationship.Requires, "IMU"),
     ("RTL", FeatureRelationship.Requires, "Barometer"),
     ("RTL", FeatureRelationship.Requires, "GPS"),
     ("EmergencyStop", FeatureRelationship.Conflicts, "Manual"),
     ("EmergencyStop", FeatureRelationship.Conflicts, "Stabilize"),
     ("EmergencyStop", FeatureRelationship.Conflicts, "AltHold"),
     ("EmergencyStop", FeatureRelationship.Conflicts, "PosHold"),
     ("EmergencyStop", FeatureRelationship.Conflicts, "Autonomous"),
     ("EmergencyStop", FeatureRelationship.Conflicts, "RTL")]
    ++ mutexConflicts flightModes

/-- Recursion budget for the `Requires`/`Implies` cascade; far deeper than
any chain in the drone graph. -/
def defaultFuel : Nat := 32

/-- `SubsystemManager::enableSubsystem`: forwards to the engine's enable. -/
def enableSubsystem (s : EngineState) (name : String) :
    EngineState × Except String Unit :=
  enableFeature droneGraph defaultFuel s name

/-- `SubsystemManager::disableSubsystem`: forwards to the engine's disable. -/
def disableSubsystem (s : EngineState) (name : String) :
    EngineState × Except String Unit :=
  disableFeature droneGraph s name

/-- `SubsystemManager::isEnabled`. -/
def isEnabled (s : EngineState) (name : String) : Bool :=
  isEnabledIn s name

/-- `SubsystemManager::enabledSubsystems`: all currently enabled names, in
registration order. -/
def enabledSubsystems (s : EngineState) : List String :=
  allFeatureNames.filter fun name => isEnabledIn s name

/-- The fixed arm-required list of `validateArmingReadiness`, in check order. -/
def armRequired : List String :=
  ["IMU", "Barometer", "BatteryMonitor", "ESC", "MotorMix", "RCReceiver"]

/-- The check loop of `validateArmingReadiness`: fail on the first name in
the list that is not enabled, naming it. -/
def validateList (s : EngineState) : List String → Except String Unit
  | [] => Except.ok ()
  | n :: rest =>
    if isEnabledIn s n then validateList s rest
    else Except.error ("Arming requires '" ++ n ++ "' to be enabled")

/-- `SubsystemManager::validateArmingReadiness`. -/
def validateArmingReadiness (s : EngineState) : Except String Unit :=
  validateList s armRequired

/-- `SubsystemManager::activeFlightMode`: the first enabled flight mode in
the fixed scan order, or the empty string when none is enabled. -/
def activeFlightMode (s : EngineState) : String :=
  match flightModes.find? (fun mode => isEnabledIn s mode) with
  | some mode => mode
  | none => ""

/-- A mutating call on the subsystem manager. -/
inductive SubsystemOp where
  | enable (name : String)
  | disable (name : String)
deriving DecidableEq, Repr

/-- Apply one enable/disable call, keeping the resulting state. -/
def applyOp (s : EngineState) : SubsystemOp → EngineState
  | SubsystemOp.enable name => (enableSubsystem s name).1
  | SubsystemOp.disable name => (disableSubsystem s name).1

/-- The state of the manager after an arbitrary call sequence, starting from
the freshly constructed (all-disabled) manager. -/
def runOps (ops : List SubsystemOp) : EngineState :=
  ops.foldl applyOp initState

/-- The five vehicle lifecycle states. -/
inductive VehicleState where
  | Preflight
  | Armed
  | Flying
  | Landing
  | Emergency
deriving DecidableEq, Repr

/-- `kName` of each state (the entry in `currentStateName`'s `kNames`). -/
def stateName : VehicleState → String
  | VehicleState.Preflight => "Preflight"
  | VehicleState.Armed => "Armed"
  | VehicleState.Flying => "Flying"
  | VehicleState.Landing => "Landing"
  | VehicleState.Emergency => "Emergency"

/-- The five event shapes of the DroneEventHub notification feed. -/
inductive Event where
  | subsystemChanged (name : String) (enabled : Bool)
  | subsystemError (name : String) (reason : String)
  | vehicleStateChanged (fromState : String) (toState : String)
  | transitionRejected (command : String) (reason : String)
  | safetyAlert (message : String)
deriving DecidableEq, Repr

/-- State of a `VehicleStateMachine`: the current state index, the
`VehicleContext` fields (`lastError`, `fromState`), and the referenced
subsystem manager state. -/
structure VSM where
  current : VehicleState
  fromState : String
  lastError : String
  subsystems : EngineState
deriving DecidableEq, Repr

/-- `currentStateName()`. -/
def currentStateName (v : VSM) : String :=
  stateName v.current

/-- `isPreflight()`. -/
def isPreflight (v : VSM) : Bool := v.current == VehicleState.Preflight

/-- `isArmed()`. -/
def isArmed (v : VSM) : Bool := v.current == VehicleState.Armed

/-- `isFlying()`. -/
def isFlying (v : VSM) : Bool := v.current == VehicleState.Flying

/-- `isLanding()`. -/
def isLanding (v : VSM) : Bool := v.current == VehicleState.Landing

/-- `isEmergency()`. -/
def isEmergency (v : VSM) : Bool := v.current == VehicleState.Emergency

/-- `VehicleStateMachine::reject`: records `lastError`, emits exactly one
`onTransitionRejected(command, reason)` and returns the error string. -/
def reject (v : VSM) (command reason : String) :
    VSM × List Event × Except String Unit :=
  ({ v with lastError := command ++ " rejected: " ++ reason },
   [Event.transitionRejected command reason],
   Except.error (command ++ " rejected: " ++ reason))

/-- The events the target state's `on_entry` hook emits.  `EmergencyState`
first emits `onSafetyAlert("EmergencyState entered")`, then the state-changed
notification; every other state emits only the state-changed notification. -/
def entryEvents (target : VehicleState) (fromName : String) : List Event :=
  match target with
  | VehicleState.Emergency =>
      [Event.safetyAlert "EmergencyState entered",
       Event.vehicleStateChanged fromName (stateName VehicleState.Emergency)]
  | t => [Event.vehicleStateChanged fromName (stateName t)]

/-- Modelled from the spec: the missing `fat_p::StateMachine::transition`
mechanics — run the current state's `on_exit` (which records the exited
state's name in `ctx.fromState`), switch the current state, then run the
target's `on_entry` (which emits the notifications of `entryEvents`). -/
def transitionTo (v : VSM) (target : VehicleState) : VSM × List Event :=
  let fromName := stateName v.current
  ({ v with current := target, fromState := fromName },
   entryEvents target fromName)

/-- `requestArm`: guard `isPreflight` then `validateArmingReadiness`. -/
def requestArm (v : VSM) : VSM × List Event × Except String Unit :=
  if !isPreflight v then
    reject v "arm" "must be in Preflight state"
  else
    match validateArmingReadiness v.subsystems with
    | Except.error e => reject v "arm" e
    | Except.ok _ =>
      let (v1, evs) := transitionTo v VehicleState.Armed
      (v1, evs, Except.ok ())

/-- `requestDisarm`: guard `isArmed`. -/
def requestDisarm (v : VSM) : VSM × List Event × Except String Unit :=
  if !isArmed v then
    reject v "disarm" "must be in Armed state"
  else
    let (v1, evs) := transitionTo v VehicleState.Preflight
    (v1, evs, Except.ok ())

/-- `requestTakeoff`: guard `isArmed` and a non-empty active flight mode. -/
def requestTakeoff (v : VSM) : VSM × List Event × Except String Unit :=
  if !isArmed v then
    reject v "takeoff" "must be in Armed state"
  else if activeFlightMode v.subsystems = "" then
    reject v "takeoff"
      "no flight mode is active - enable Manual, Stabilize, AltHold, PosHold, Autonomous, or RTL"
  else
    let (v1, evs) := transitionTo v VehicleState.Flying
    (v1, evs, Except.ok ())

/-- `requestLand`: guard `isFlying`. -/
def requestLand (v : VSM) : VSM × List Event × Except String Unit :=
  if !isFlying v then
    reject v "land" "must be in Flying state"
  else
    let (v1, evs) := transitionTo v VehicleState.Landing
    (v1, evs, Except.ok ())

/-- `requestLandingComplete`: guard `isLanding`. -/
def requestLandingComplete (v : VSM) : VSM × List Event × Except String Unit :=
  if !isLanding v then
    reject v "landing_complete" "must be in Landing state"
  else
    let (v1, evs) := transitionTo v VehicleState.Armed
    (v1, evs, Except.ok ())

/-- `requestDisarmAfterLanding`: guard `isLanding`. -/
def requestDisarmAfterLanding (v : VSM) : VSM × List Event × Except String Unit :=
  if !isLanding v then
    reject v "disarm_after_landing" "must be in Landing state"
  else
    let (v1, evs) := transitionTo v VehicleState.Preflight
    (v1, evs, Except.ok ())

/-- `requestEmergency(reason)`: rejected from Emergency or Preflight, else
emits `onSafetyAlert(reason)` and transitions to Emergency. -/
def requestEmergency (v : VSM) (reason : String) :
    VSM × List Event × Except String Unit :=
  if isEmergency v || isPreflight v then
    reject v "emergency" "already in terminal state"
  else
    let (v1, evs) := transitionTo v VehicleState.Emergency
    (v1, Event.safetyAlert reason :: evs, Except.ok ())

/-- `requestReset`: guard `isEmergency`. -/
def requestReset (v : VSM) : VSM × List Event × Except String Unit :=
  if !isEmergency v then
    reject v "reset" "must be in Emergency state"
  else
    let (v1, evs) := transitionTo v VehicleState.Preflight
    (v1, evs, Except.ok ())

/-- The eight public transition requests of `VehicleStateMachine`. -/
inductive Request where
  | arm
  | disarm
  | takeoff
  | land
  | landingComplete
  | disarmAfterLanding
  | emergency (reason : String)
  | reset
deriving DecidableEq, Repr

/-- The command name each request passes to `reject`. -/
def commandName : Request → String
  | Request.arm => "arm"
  | Request.disarm => "disarm"
  | Request.takeoff => "takeoff"
  | Request.land => "land"
  | Request.landingComplete => "landing_complete"
  | Request.disarmAfterLanding => "disarm_after_landing"
  | Request.emergency _ => "emergency"
  | Request.reset => "reset"

/-- Dispatch a transition request to its handler. -/
def applyRequest (v : VSM) : Request → VSM × List Event × Except String Unit
  | Request.arm => requestArm v
  | Request.disarm => requestDisarm v
  | Request.takeoff => requestTakeoff v
  | Request.land => requestLand v
  | Request.landingComplete => requestLandingComplete v
  | Request.disarmAfterLanding => requestDisarmAfterLanding v
  | Request.emergency reason => requestEmergency v reason
  | Request.reset => requestReset v

/-- A freshly constructed `VehicleStateMachine` over the given subsystem
state: initial state Preflight, empty `fromState` (the construction-time
entry into Preflight fires with an empty from-name). -/
def initVSM (s : EngineState) : VSM :=
  ⟨VehicleState.Preflight, "", "", s⟩

/-- A graph without `Preempts` edges (the drone graph is one: every
EmergencyStop/flight-mode edge is registered as `Conflicts`). -/
def NoPreempts (g : FeatureGraph) : Prop :=
  ∀ e ∈ g.edges, e.2.1 ≠ FeatureRelationship.Preempts

/-- A graph without self-loop edges. -/
def NoSelfEdge (g : FeatureGraph) : Prop :=
  ∀ e ∈ g.edges, e.1 ≠ e.2.2

/-- One engine state extends another: same latches, enabled set grown. -/
def Pres (s t : EngineState) : Prop :=
  t.inhibited = s.inhibited ∧ ∀ m ∈ s.enabled, m ∈ t.enabled

/-- The engine invariants of spec section 3: every `Requires` edge out of an
enabled node points to an enabled node, no `Conflicts` pair is simultaneously
enabled, and (for a preempt-free graph) no latch is set. -/
def EngineInv (g : FeatureGraph) (s : EngineState) : Prop :=
  (∀ a b, (a, FeatureRelationship.Requires, b) ∈ g.edges →
    a ∈ s.enabled → b ∈ s.enabled) ∧
  (∀ a b, (a, FeatureRelationship.Conflicts, b) ∈ g.edges →
    ¬(a ∈ s.enabled ∧ b ∈ s.enabled)) ∧
  s.inhibited = []

end Drone

namespace Drone

theorem isEnabledIn_iff (s : EngineState) (n : String) :
    isEnabledIn s n = true ↔ n ∈ s.enabled := by
  unfold isEnabledIn
  exact List.elem_iff

theorem pres_refl (s : EngineState) : Pres s s := ⟨rfl, fun _ h => h⟩

theorem pres_trans {s t u : EngineState} (h1 : Pres s t) (h2 : Pres t u) :
    Pres s u :=
  ⟨h2.1.trans h1.1, fun m hm => h2.2 m (h1.2 m hm)⟩

theorem mem_requiresOf {g : FeatureGraph} {a b : String} :
    b ∈ requiresOf g a ↔ (a, FeatureRelationship.Requires, b) ∈ g.edges := by
  unfold requiresOf
  rw [List.mem_filterMap]
  constructor
  · rintro ⟨⟨x, k, y⟩, he, hif⟩
    split at hif
    · next h =>
      obtain ⟨h1, h2⟩ := h
      simp only at h1 h2
      simp only [Option.some.injEq] at hif
      subst h1; subst h2; subst hif
      exact he
    · exact absurd hif (by simp)
  · intro he
    exact ⟨(a, FeatureRelationship.Requires, b), he, by simp⟩

theorem noPreempts_droneGraph : NoPreempts droneGraph := by
  unfold NoPreempts; decide

theorem noSelfEdge_droneGraph : NoSelfEdge droneGraph := by
  unfold NoSelfEdge; decide

theorem modes_pairwise_conflict :
    ∀ a ∈ flightModes, ∀ b ∈ flightModes, a ≠ b →
      (a, FeatureRelationship.Conflicts, b) ∈ droneGraph.edges ∨
      (b, FeatureRelationship.Conflicts, a) ∈ droneGraph.edges := by decide

theorem droneGraph_edge_ends_registered :
    ∀ e ∈ droneGraph.edges,
      e.1 ∈ allFeatureNames ∧ e.2.2 ∈ allFeatureNames := by decide

theorem enabledConflicts_snd_false {g : FeatureGraph} (hg : NoPreempts g)
    (s : EngineState) (n : String) :
    ∀ p ∈ enabledConflicts g s n, p.2 = false := by
  intro p hp
  unfold enabledConflicts at hp
  rw [List.mem_filterMap] at hp
  obtain ⟨⟨x, k, y⟩, he, hf⟩ := hp
  cases k with
  | Conflicts =>
    simp only at hf
    split at hf
    · simp only [Option.some.injEq] at hf; subst hf; rfl
    · split at hf
      · simp only [Option.some.injEq] at hf; subst hf; rfl
      · exact absurd hf (by simp)
  | Preempts => exact absurd rfl (hg _ he)
  | Requires => exact absurd hf (by simp)
  | Implies => exact absurd hf (by simp)

theorem enabledConflicts_nil_of_not_any {g : FeatureGraph} (hg : NoPreempts g)
    {s : EngineState} {n : String}
    (h : (enabledConflicts g s n).any (fun p => !p.2) = false) :
    enabledConflicts g s n = [] := by
  cases hc : enabledConflicts g s n with
  | nil => rfl
  | cons p rest =>
    exfalso
    have hp : p.2 = false := enabledConflicts_snd_false hg s n p (by rw [hc]; simp)
    rw [hc] at h
    simp [List.any_cons, hp] at h

theorem enabledConflicts_nil_src {g : FeatureGraph} {s : EngineState}
    {n b : String} (hnil : enabledConflicts g s n = [])
    (he : (n, FeatureRelationship.Conflicts, b) ∈ g.edges) :
    isEnabledIn s b = false := by
  have hforall := List.filterMap_eq_nil_iff.mp hnil
  have hf := hforall _ he
  by_contra hb
  rw [Bool.not_eq_false] at hb
  simp [hb] at hf

theorem enabledConflicts_nil_tgt {g : FeatureGraph} {s : EngineState}
    {n a : String} (hnil : enabledConflicts g s n = [])
    (he : (a, FeatureRelationship.Conflicts, n) ∈ g.edges) (hne : a ≠ n) :
    isEnabledIn s a = false := by
  have hforall := List.filterMap_eq_nil_iff.mp hnil
  have hf := hforall _ he
  by_contra ha
  rw [Bool.not_eq_false] at ha
  simp [ha, hne] at hf

end Drone

namespace Drone

theorem pres_enableRequired_of {g : FeatureGraph} {fuel : Nat}
    (hF : ∀ s n, Pres s (enableFeature g fuel s n).1) :
    ∀ ns s, Pres s (enableRequired (enableFeature g fuel) s ns).1 := by
  intro ns
  induction ns with
  | nil => intro s; simp only [enableRequired]; exact pres_refl s
  | cons n rest ih =>
    intro s
    rcases hone : enableFeature g fuel s n with ⟨s1, r⟩
    have h1 : Pres s s1 := by
      have := hF s n
      rw [hone] at this
      exact this
    cases r with
    | ok u =>
      simp only [enableRequired, hone]
      exact pres_trans h1 (ih s1)
    | error e =>
      simp only [enableRequired, hone]
      exact h1

theorem pres_enableImplied_of {g : FeatureGraph} {fuel : Nat}
    (hF : ∀ s n, Pres s (enableFeature g fuel s n).1) :
    ∀ ns s, Pres s (enableImplied (enableFeature g fuel) s ns) := by
  intro ns
  induction ns with
  | nil => intro s; simp only [enableImplied]; exact pres_refl s
  | cons n rest ih =>
    intro s
    simp only [enableImplied]
    exact pres_trans (hF s n) (ih (enableFeature g fuel s n).1)

theorem pres_enableFeature {g : FeatureGraph} (hg : NoPreempts g) :
    ∀ fuel s n, Pres s (enableFeature g fuel s n).1 := by
  intro fuel
  induction fuel with
  | zero => intro s n; simp only [enableFeature]; exact pres_refl s
  | succ fuel ih =>
    intro s name
    by_cases h1 : g.features.contains name = false
    · simp only [enableFeature, h1, if_true]; exact pres_refl s
    · by_cases h2 : isEnabledIn s name = true
      · simp only [enableFeature, h1, if_false, h2, if_true]; exact pres_refl s
      · by_cases h3 : isInhibited s name = true
        · simp only [enableFeature, h1, if_false, h2, h3, if_true]
          exact pres_refl s
        · rcases hreq : enableRequired (enableFeature g fuel) s (requiresOf g name) with ⟨s1, r⟩
          have hs1 : Pres s s1 := by
            have := pres_enableRequired_of ih (requiresOf g name) s
            rw [hreq] at this
            exact this
          cases r with
          | error e =>
            simp only [enableFeature, h1, if_false, h2, h3, hreq]
            exact hs1
          | ok u =>
            by_cases h4 :
                ((enabledConflicts g s1 name).any fun p => !p.2) = true
            · simp only [enableFeature, h1, if_false, h2, h3, hreq, h4, if_true]
              exact hs1
            · have hnil : enabledConflicts g s1 name = [] :=
                enabledConflicts_nil_of_not_any hg (Bool.not_eq_true _ ▸ h4)
              simp only [enableFeature, h1, if_false, h2, h3, hreq, h4, hnil,
                List.map_nil, forcePreempt]
              refine pres_trans hs1 (pres_trans ?_
                (pres_enableImplied_of ih (impliesOf g name)
                  ⟨name :: s1.enabled, s1.inhibited⟩))
              exact ⟨rfl, fun m hm => List.mem_cons_of_mem _ hm⟩

end Drone

namespace Drone

theorem enableFeature_ok_enabled {g : FeatureGraph} (hg : NoPreempts g)
    {fuel : Nat} {s s' : EngineState} {name : String} {u : Unit}
    (h : enableFeature g fuel s name = (s', Except.ok u)) :
    name ∈ s'.enabled := by
  cases fuel with
  | zero => simp [enableFeature] at h
  | succ fuel =>
    by_cases h1 : name ∈ g.features
    · by_cases h2 : isEnabledIn s name = true
      · simp [enableFeature, h1, h2] at h
        exact h ▸ (isEnabledIn_iff s name).mp h2
      · by_cases h3 : isInhibited s name = true
        · simp [enableFeature, h1, h2, h3] at h
        · rcases hreq : enableRequired (enableFeature g fuel) s (requiresOf g name) with ⟨s1, r⟩
          cases r with
          | error e =>
            simp [enableFeature, h1, h2, h3, hreq] at h
          | ok w =>
            by_cases h4 :
                ((enabledConflicts g s1 name).any fun p => !p.2) = true
            · simp [enableFeature, h1, h2, h3, hreq, h4] at h
            · have hnil : enabledConflicts g s1 name = [] :=
                enabledConflicts_nil_of_not_any hg (Bool.not_eq_true _ ▸ h4)
              simp [enableFeature, h1, h2, h3, hreq, h4, hnil,
                forcePreempt] at h
              exact h ▸ (pres_enableImplied_of (pres_enableFeature hg fuel)
                (impliesOf g name) ⟨name :: s1.enabled, s1.inhibited⟩).2 name
                (List.mem_cons_self name s1.enabled)
    · simp [enableFeature, h1] at h

theorem enableRequired_ok_enabled {g : FeatureGraph} (hg : NoPreempts g)
    {fuel : Nat} {ns : List String} {s s' : EngineState} {u : Unit}
    (h : enableRequired (enableFeature g fuel) s ns = (s', Except.ok u)) :
    ∀ n ∈ ns, n ∈ s'.enabled := by
  induction ns generalizing s with
  | nil => intro n hn; cases hn
  | cons m rest ih =>
    rcases hone : enableFeature g fuel s m with ⟨s1, r⟩
    cases r with
    | error e =>
      simp [enableRequired, hone] at h
    | ok w =>
      simp only [enableRequired, hone] at h
      intro n hn
      rcases List.mem_cons.mp hn with hEq | hMem
      · subst hEq
        have hmem : n ∈ s1.enabled := enableFeature_ok_enabled hg hone
        have hpres : Pres s1 s' := by
          have := pres_enableRequired_of (pres_enableFeature hg fuel) rest s1
          rw [h] at this
          exact this
        exact hpres.2 n hmem
      · exact ih h n hMem

end Drone

namespace Drone

theorem inv_enableRequired_of {g : FeatureGraph} {fuel : Nat}
    (hIH : ∀ s n, EngineInv g s → EngineInv g (enableFeature g fuel s n).1) :
    ∀ ns s, EngineInv g s → EngineInv g (enableRequired (enableFeature g fuel) s ns).1 := by
  intro ns
  induction ns with
  | nil => intro s hInv; simp only [enableRequired]; exact hInv
  | cons n rest ih =>
    intro s hInv
    rcases hone : enableFeature g fuel s n with ⟨s1, r⟩
    have h1 : EngineInv g s1 := by
      have := hIH s n hInv
      rw [hone] at this
      exact this
    cases r with
    | ok u =>
      simp only [enableRequired, hone]
      exact ih s1 h1
    | error e =>
      simp only [enableRequired, hone]
      exact h1

theorem inv_enableImplied_of {g : FeatureGraph} {fuel : Nat}
    (hIH : ∀ s n, EngineInv g s → EngineInv g (enableFeature g fuel s n).1) :
    ∀ ns s, EngineInv g s → EngineInv g (enableImplied (enableFeature g fuel) s ns) := by
  intro ns
  induction ns with
  | nil => intro s hInv; simp only [enableImplied]; exact hInv
  | cons n rest ih =>
    intro s hInv
    simp only [enableImplied]
    exact ih (enableFeature g fuel s n).1 (hIH s n hInv)

theorem inv_enableFeature {g : FeatureGraph} (hg : NoPreempts g)
    (hse : NoSelfEdge g) :
    ∀ fuel s name, EngineInv g s → EngineInv g (enableFeature g fuel s name).1 := by
  intro fuel
  induction fuel with
  | zero => intro s name hInv; simp only [enableFeature]; exact hInv
  | succ fuel ih =>
    intro s name hInv
    by_cases h1 : name ∈ g.features
    · by_cases h2 : isEnabledIn s name = true
      · simp [enableFeature, h1, h2]
        exact hInv
      · by_cases h3 : isInhibited s name = true
        · simp [enableFeature, h1, h2, h3]
          exact hInv
        · rcases hreq : enableRequired (enableFeature g fuel) s (requiresOf g name) with ⟨s1, r⟩
          have hInv1 : EngineInv g s1 := by
            have := inv_enableRequired_of ih (requiresOf g name) s hInv
            rw [hreq] at this
            exact this
          cases r with
          | error e =>
            simp [enableFeature, h1, h2, h3, hreq]
            exact hInv1
          | ok w =>
            by_cases h4 :
                ((enabledConflicts g s1 name).any fun p => !p.2) = true
            · simp [enableFeature, h1, h2, h3, hreq, h4]
              exact hInv1
            · have hnil : enabledConflicts g s1 name = [] :=
                enabledConflicts_nil_of_not_any hg (Bool.not_eq_true _ ▸ h4)
              have hreq_en : ∀ n ∈ requiresOf g name, n ∈ s1.enabled :=
                enableRequired_ok_enabled hg hreq
              simp [enableFeature, h1, h2, h3, hreq, h4, hnil, forcePreempt]
              refine inv_enableImplied_of ih (impliesOf g name)
                ⟨name :: s1.enabled, s1.inhibited⟩ ⟨?_, ?_, hInv1.2.2⟩
              · intro a b he ha
                rcases List.mem_cons.mp ha with rfl | ha1
                · exact List.mem_cons_of_mem _
                    (hreq_en b (mem_requiresOf.mpr he))
                · exact List.mem_cons_of_mem _ (hInv1.1 a b he ha1)
              · intro a b he hab
                obtain ⟨ha, hb⟩ := hab
                rcases List.mem_cons.mp ha with rfl | ha1
                · rcases List.mem_cons.mp hb with hbn | hb1
                  · exact hse (a, FeatureRelationship.Conflicts, b) he hbn.symm
                  · have := enabledConflicts_nil_src hnil he
                    rw [(isEnabledIn_iff s1 b).mpr hb1] at this
                    cases this
                · rcases List.mem_cons.mp hb with rfl | hb1
                  · have hne : a ≠ b :=
                      hse (a, FeatureRelationship.Conflicts, b) he
                    have := enabledConflicts_nil_tgt hnil he hne
                    rw [(isEnabledIn_iff s1 a).mpr ha1] at this
                    cases this
                  · exact hInv1.2.1 a b he ⟨ha1, hb1⟩
    · simp [enableFeature, h1]
      exact hInv

theorem inv_disableFeature {g : FeatureGraph} (s : EngineState) (name : String)
    (hInv : EngineInv g s) : EngineInv g (disableFeature g s name).1 := by
  by_cases h1 : name ∈ g.features
  · by_cases h2 : dependentActive g s name = true
    · simp [disableFeature, h1, h2]
      exact hInv
    · simp [disableFeature, h1, h2]
      refine ⟨?_, ?_, hInv.2.2⟩
      · intro a b he ha
        rw [List.mem_filter] at ha
        obtain ⟨ha1, _⟩ := ha
        have hb : b ∈ s.enabled := hInv.1 a b he ha1
        have hbn : b ≠ name := by
          intro hbn
          subst hbn
          apply h2
          refine List.any_eq_true.mpr ⟨(a, FeatureRelationship.Requires, b), he, ?_⟩
          simp [(isEnabledIn_iff s a).mpr ha1]
        rw [List.mem_filter]
        exact ⟨hb, by simp [hbn]⟩
      · intro a b he hab
        obtain ⟨ha, hb⟩ := hab
        rw [List.mem_filter] at ha hb
        exact hInv.2.1 a b he ⟨ha.1, hb.1⟩
  · simp [disableFeature, h1]
    exact hInv

theorem engineInv_initState : EngineInv droneGraph initState := by
  refine ⟨?_, ?_, rfl⟩
  · intro a b _ ha
    cases ha
  · intro a b _ h
    cases h.1

theorem inv_applyOp (s : EngineState) (op : SubsystemOp)
    (hInv : EngineInv droneGraph s) : EngineInv droneGraph (applyOp s op) := by
  cases op with
  | enable n =>
    exact inv_enableFeature noPreempts_droneGraph noSelfEdge_droneGraph
      defaultFuel s n hInv
  | disable n =>
    exact inv_disableFeature s n hInv

theorem engineInv_foldl (ops : List SubsystemOp) :
    ∀ s, EngineInv droneGraph s → EngineInv droneGraph (ops.foldl applyOp s) := by
  induction ops with
  | nil => intro s h; exact h
  | cons op rest ih =>
    intro s h
    exact ih (applyOp s op) (inv_applyOp s op h)

theorem engineInv_runOps (ops : List SubsystemOp) :
    EngineInv droneGraph (runOps ops) :=
  engineInv_foldl ops initState engineInv_initState

end Drone

namespace Drone

theorem validateList_ok_iff (s : EngineState) :
    ∀ l : List String,
      validateList s l = Except.ok () ↔ ∀ n ∈ l, isEnabledIn s n = true := by
  intro l
  induction l with
  | nil => simp [validateList]
  | cons n rest ih =>
    by_cases h : isEnabledIn s n = true
    · simp [validateList, h, ih]
    · simp [validateList, h]

theorem validateList_first_missing (s : EngineState) :
    ∀ (l : List String) (n : String),
      l.find? (fun m => !isEnabledIn s m) = some n →
      validateList s l =
        Except.error ("Arming requires '" ++ n ++ "' to be enabled") := by
  intro l
  induction l with
  | nil => intro n h; cases h
  | cons m rest ih =>
    intro n h
    by_cases hm : isEnabledIn s m = true
    · rw [List.find?_cons_of_neg] at h
      · simp [validateList, hm]
        exact ih n h
      · simp [hm]
    · rw [List.find?_cons_of_pos] at h
      · simp only [Option.some.injEq] at h
        subst h
        simp [validateList, hm]
      · simp [hm]

end Drone

namespace Drone

/-- C1: the claim states that enabling EmergencyStop while a flight mode is
active succeeds, force-disables the mode, and inhibits flight modes until
EmergencyStop is disabled.  On the code as written this fails:
`registerRelationships` installs `FR::Conflicts` edges between EmergencyStop
and every flight mode, so with Manual enabled the call
`enableSubsystem("EmergencyStop")` is rejected with a conflict error, the
state is unchanged, and Manual stays enabled. -/
theorem emergencyStop_rejected_while_manual_active :
    isEnabled (enableSubsystem initState "Manual").1 "Manual" = true ∧
    (enableSubsystem (enableSubsystem initState "Manual").1 "EmergencyStop").2
      = Except.error "Conflict: cannot enable EmergencyStop" ∧
    (enableSubsystem (enableSubsystem initState "Manual").1 "EmergencyStop").1
      = (enableSubsystem initState "Manual").1 :=
  ⟨rfl, rfl, rfl⟩

/-- C6: from the freshly constructed manager, one call
`enableSubsystem("MotorMix")` succeeds and leaves MotorMix, ESC and
BatteryMonitor all enabled (the depth-2 Requires chain is resolved
transitively within the call). -/
theorem motorMix_requires_chain_enabled :
    (enableSubsystem initState "MotorMix").2 = Except.ok () ∧
    isEnabled (enableSubsystem initState "MotorMix").1 "MotorMix" = true ∧
    isEnabled (enableSubsystem initState "MotorMix").1 "ESC" = true ∧
    isEnabled (enableSubsystem initState "MotorMix").1 "BatteryMonitor" = true :=
  ⟨rfl, rfl, rfl, rfl⟩

/-- C7: `validateArmingReadiness` checks exactly the six nodes IMU,
Barometer, BatteryMonitor, ESC, MotorMix, RCReceiver in that fixed order:
it succeeds precisely when all six are enabled, it fails on the first of
them that is not enabled with a reason naming that node, it fails on the
all-disabled initial state (naming IMU), and it succeeds when exactly those
six are enabled. -/
theorem validateArmingReadiness_spec (s : EngineState) :
    (validateArmingReadiness s = Except.ok () ↔
      ∀ n ∈ armRequired, isEnabledIn s n = true) ∧
    (∀ n, armRequired.find? (fun m => !isEnabledIn s m) = some n →
      validateArmingReadiness s =
        Except.error ("Arming requires '" ++ n ++ "' to be enabled")) ∧
    validateArmingReadiness initState =
      Except.error "Arming requires 'IMU' to be enabled" ∧
    validateArmingReadiness ⟨armRequired, []⟩ = Except.ok () := by
  refine ⟨validateList_ok_iff s armRequired, ?_, rfl, rfl⟩
  intro n h
  exact validateList_first_missing s armRequired n h

/-- Witness for C7 at concrete states: the readiness check succeeds on the
exact six-name arm-required set and fails on the fresh all-disabled state
naming IMU. -/
theorem validateArmingReadiness_spec_witness :
    validateArmingReadiness ⟨armRequired, []⟩ = Except.ok () ∧
    validateArmingReadiness initState =
      Except.error ("Arming requires '" ++ "IMU" ++ "' to be enabled") :=
  ⟨(validateArmingReadiness_spec ⟨armRequired, []⟩).1.mpr (by decide),
   (validateArmingReadiness_spec initState).2.1 "IMU" (by decide)⟩

end Drone

namespace Drone

/-- C4: in every state reachable from the fresh manager by enable/disable
calls, at most one of the six flight modes is enabled, `activeFlightMode`
returns the enabled mode's name when one is enabled, and the empty result
when none is. -/
theorem flightMode_exclusive_and_active_query (ops : List SubsystemOp) :
    (∀ m1 ∈ flightModes, ∀ m2 ∈ flightModes,
      isEnabledIn (runOps ops) m1 = true →
      isEnabledIn (runOps ops) m2 = true → m1 = m2) ∧
    (∀ m ∈ flightModes, isEnabledIn (runOps ops) m = true →
      activeFlightMode (runOps ops) = m) ∧
    ((∀ m ∈ flightModes, isEnabledIn (runOps ops) m = false) →
      activeFlightMode (runOps ops) = "") := by
  have hInv := engineInv_runOps ops
  have hmax : ∀ m1 ∈ flightModes, ∀ m2 ∈ flightModes,
      isEnabledIn (runOps ops) m1 = true →
      isEnabledIn (runOps ops) m2 = true → m1 = m2 := by
    intro m1 h1 m2 h2 he1 he2
    by_contra hne
    rcases modes_pairwise_conflict m1 h1 m2 h2 hne with hE | hE
    · exact hInv.2.1 m1 m2 hE
        ⟨(isEnabledIn_iff _ _).mp he1, (isEnabledIn_iff _ _).mp he2⟩
    · exact hInv.2.1 m2 m1 hE
        ⟨(isEnabledIn_iff _ _).mp he2, (isEnabledIn_iff _ _).mp he1⟩
  refine ⟨hmax, ?_, ?_⟩
  · intro m hm he
    unfold activeFlightMode
    cases hf : flightModes.find? (fun mode => isEnabledIn (runOps ops) mode) with
    | none =>
      exfalso
      have := List.find?_eq_none.mp hf m hm
      exact this he
    | some m1 =>
      have hp : isEnabledIn (runOps ops) m1 = true := List.find?_some hf
      have hm1 : m1 ∈ flightModes := List.mem_of_find?_eq_some hf
      exact hmax m1 hm1 m hm hp he
  · intro hall
    unfold activeFlightMode
    rw [List.find?_eq_none.mpr]
    intro m hm
    simp [hall m hm]

/-- Witness for C4 at a concrete reachable state: after enabling Manual, the
active flight mode query returns Manual. -/
theorem flightMode_exclusive_and_active_query_witness :
    "Manual" ∈ flightModes ∧
    isEnabledIn (runOps [SubsystemOp.enable "Manual"]) "Manual" = true ∧
    activeFlightMode (runOps [SubsystemOp.enable "Manual"]) = "Manual" :=
  ⟨by decide, by decide,
   (flightMode_exclusive_and_active_query [SubsystemOp.enable "Manual"]).2.1
     "Manual" (by decide) (by decide)⟩

/-- C5: in every reachable state, every registered `Requires` edge (A,B)
with A enabled has B enabled, and disabling such a B fails with an error and
leaves the state (hence the enabled set) unchanged. -/
theorem requires_closed_and_disable_blocked (ops : List SubsystemOp) :
    (∀ a b, (a, FeatureRelationship.Requires, b) ∈ droneGraph.edges →
      isEnabledIn (runOps ops) a = true → isEnabledIn (runOps ops) b = true) ∧
    (∀ a b, (a, FeatureRelationship.Requires, b) ∈ droneGraph.edges →
      isEnabledIn (runOps ops) a = true →
      disableSubsystem (runOps ops) b =
        (runOps ops,
         Except.error ("Cannot disable " ++ b ++ ": an enabled feature requires it"))) := by
  have hInv := engineInv_runOps ops
  constructor
  · intro a b he ha
    exact (isEnabledIn_iff _ _).mpr
      (hInv.1 a b he ((isEnabledIn_iff _ _).mp ha))
  · intro a b he ha
    have hbf : b ∈ droneGraph.features :=
      (droneGraph_edge_ends_registered _ he).2
    have hda : dependentActive droneGraph (runOps ops) b = true := by
      refine List.any_eq_true.mpr ⟨(a, FeatureRelationship.Requires, b), he, ?_⟩
      simp [ha]
    simp [disableSubsystem, disableFeature, hbf, hda]

/-- Witness for C5 at a concrete reachable state: after enabling Stabilize,
IMU is enabled and disabling IMU is rejected without a state change. -/
theorem requires_closed_and_disable_blocked_witness :
    ("Stabilize", FeatureRelationship.Requires, "IMU") ∈ droneGraph.edges ∧
    isEnabledIn (runOps [SubsystemOp.enable "Stabilize"]) "Stabilize" = true ∧
    disableSubsystem (runOps [SubsystemOp.enable "Stabilize"]) "IMU" =
      (runOps [SubsystemOp.enable "Stabilize"],
       Except.error ("Cannot disable " ++ "IMU" ++ ": an enabled feature requires it")) :=
  ⟨by decide, by decide,
   (requires_closed_and_disable_blocked [SubsystemOp.enable "Stabilize"]).2
     "Stabilize" "IMU" (by decide) (by decide)⟩

/-- C9: in every reachable state, disabling a registered subsystem that is
currently disabled is a successful no-op, doing it twice is a no-op both
times, and `enabledSubsystems` is identical before and after. -/
theorem disable_disabled_noop (ops : List SubsystemOp) (name : String)
    (hreg : name ∈ allFeatureNames)
    (hdis : isEnabledIn (runOps ops) name = false) :
    disableSubsystem (runOps ops) name = (runOps ops, Except.ok ()) ∧
    disableSubsystem (disableSubsystem (runOps ops) name).1 name =
      (runOps ops, Except.ok ()) ∧
    enabledSubsystems (disableSubsystem (runOps ops) name).1 =
      enabledSubsystems (runOps ops) := by
  have hInv := engineInv_runOps ops
  have hda : dependentActive droneGraph (runOps ops) name = false := by
    cases hda : dependentActive droneGraph (runOps ops) name with
    | false => rfl
    | true =>
      exfalso
      obtain ⟨e, he, hf⟩ := List.any_eq_true.mp hda
      rcases e with ⟨x, k, y⟩
      cases k with
      | Requires =>
        simp only [beq_iff_eq, Bool.and_eq_true] at hf
        obtain ⟨hy, hx⟩ := hf
        have hyen := hInv.1 x y he ((isEnabledIn_iff _ _).mp hx)
        rw [hy] at hyen
        rw [(isEnabledIn_iff _ _).mpr hyen] at hdis
        cases hdis
      | Implies => cases hf
      | Conflicts => cases hf
      | Preempts => cases hf
  have hfeat : name ∈ droneGraph.features := hreg
  have hfilter : (runOps ops).enabled.filter (fun m => m != name) =
      (runOps ops).enabled := by
    refine List.filter_eq_self.mpr ?_
    intro m hm
    refine bne_iff_ne.mpr ?_
    intro hEq
    subst hEq
    rw [(isEnabledIn_iff _ _).mpr hm] at hdis
    cases hdis
  have hfirst : disableSubsystem (runOps ops) name = (runOps ops, Except.ok ()) := by
    simp [disableSubsystem, disableFeature, hfeat, hda, hfilter]
  refine ⟨hfirst, ?_, ?_⟩
  · rw [hfirst]
    exact hfirst
  · rw [hfirst]

/-- Witness for C9 at a concrete reachable state: GPS is registered and
disabled in the fresh manager, and disabling it twice is a no-op both
times. -/
theorem disable_disabled_noop_witness :
    "GPS" ∈ allFeatureNames ∧
    isEnabledIn (runOps []) "GPS" = false ∧
    disableSubsystem (runOps []) "GPS" = (runOps [], Except.ok ()) ∧
    disableSubsystem (disableSubsystem (runOps []) "GPS").1 "GPS" =
      (runOps [], Except.ok ()) :=
  ⟨by decide, by decide,
   (disable_disabled_noop [] "GPS" (by decide) (by decide)).1,
   (disable_disabled_noop [] "GPS" (by decide) (by decide)).2.1⟩

end Drone

namespace Drone

@[simp]
theorem except_isOk_error (e : String) :
    (Except.error e : Except String Unit).isOk = false := rfl

@[simp]
theorem except_isOk_ok (u : Unit) :
    (Except.ok u : Except String Unit).isOk = true := rfl

theorem requestArm_ok_current (v : VSM)
    (h : (requestArm v).2.2.isOk = true) :
    (requestArm v).1.current = VehicleState.Armed := by
  by_cases hp : v.current = VehicleState.Preflight
  · rcases hv : validateArmingReadiness v.subsystems with e | u
    · exfalso
      revert h
      simp [requestArm, isPreflight, beq_iff_eq, hp, hv, reject]
    · simp [requestArm, isPreflight, beq_iff_eq, hp, hv, transitionTo]
  · exfalso
    revert h
    simp [requestArm, isPreflight, beq_iff_eq, hp, reject]

theorem requestTakeoff_ok_current (v : VSM)
    (h : (requestTakeoff v).2.2.isOk = true) :
    (requestTakeoff v).1.current = VehicleState.Flying := by
  by_cases ha : v.current = VehicleState.Armed
  · by_cases hm : activeFlightMode v.subsystems = ""
    · exfalso
      revert h
      simp [requestTakeoff, isArmed, beq_iff_eq, ha, hm, reject]
    · simp [requestTakeoff, isArmed, beq_iff_eq, ha, hm, transitionTo]
  · exfalso
    revert h
    simp [requestTakeoff, isArmed, beq_iff_eq, ha, reject]

theorem requestLand_ok_current (v : VSM)
    (h : (requestLand v).2.2.isOk = true) :
    (requestLand v).1.current = VehicleState.Landing := by
  by_cases hf : v.current = VehicleState.Flying
  · simp [requestLand, isFlying, beq_iff_eq, hf, transitionTo]
  · exfalso
    revert h
    simp [requestLand, isFlying, beq_iff_eq, hf, reject]

theorem requestLandingComplete_ok_current (v : VSM)
    (h : (requestLandingComplete v).2.2.isOk = true) :
    (requestLandingComplete v).1.current = VehicleState.Armed := by
  by_cases hl : v.current = VehicleState.Landing
  · simp [requestLandingComplete, isLanding, beq_iff_eq, hl, transitionTo]
  · exfalso
    revert h
    simp [requestLandingComplete, isLanding, beq_iff_eq, hl, reject]

theorem requestDisarm_ok_current (v : VSM)
    (h : (requestDisarm v).2.2.isOk = true) :
    (requestDisarm v).1.current = VehicleState.Preflight := by
  by_cases ha : v.current = VehicleState.Armed
  · simp [requestDisarm, isArmed, beq_iff_eq, ha, transitionTo]
  · exfalso
    revert h
    simp [requestDisarm, isArmed, beq_iff_eq, ha, reject]

/-- C3: `requestArm` fails from Armed, Flying, Landing and Emergency; from
Preflight with readiness satisfied it succeeds, the state becomes Armed,
and the state-changed notification ("Preflight","Armed") fires; from
Preflight with readiness failing it fails and the state stays Preflight. -/
theorem requestArm_spec (v : VSM) :
    ((v.current = VehicleState.Armed ∨ v.current = VehicleState.Flying ∨
      v.current = VehicleState.Landing ∨ v.current = VehicleState.Emergency) →
      (requestArm v).2.2.isOk = false ∧ (requestArm v).1.current = v.current) ∧
    (v.current = VehicleState.Preflight →
      validateArmingReadiness v.subsystems = Except.ok () →
      (requestArm v).2.2.isOk = true ∧
      (requestArm v).1.current = VehicleState.Armed ∧
      (requestArm v).2.1 = [Event.vehicleStateChanged "Preflight" "Armed"]) ∧
    (∀ e, v.current = VehicleState.Preflight →
      validateArmingReadiness v.subsystems = Except.error e →
      (requestArm v).2.2.isOk = false ∧
      (requestArm v).1.current = VehicleState.Preflight) := by
  refine ⟨?_, ?_, ?_⟩
  · intro h
    have hp : ¬ v.current = VehicleState.Preflight := by
      rcases h with h | h | h | h <;> rw [h] <;> intro hc <;> cases hc
    simp [requestArm, isPreflight, beq_iff_eq, hp, reject]
  · intro hp hv
    simp [requestArm, isPreflight, beq_iff_eq, hp, hv, transitionTo,
      entryEvents, stateName]
  · intro e hp hv
    simp [requestArm, isPreflight, beq_iff_eq, hp, hv, reject]

/-- Witness for C3 at concrete states: arming fails from Armed, succeeds
from Preflight with the six arm-required subsystems enabled, and fails from
Preflight with nothing enabled. -/
theorem requestArm_spec_witness :
    ((requestArm ⟨VehicleState.Armed, "", "", initState⟩).2.2.isOk = false) ∧
    ((requestArm (initVSM ⟨armRequired, []⟩)).2.2.isOk = true ∧
      (requestArm (initVSM ⟨armRequired, []⟩)).1.current = VehicleState.Armed) ∧
    ((requestArm (initVSM initState)).2.2.isOk = false) :=
  ⟨((requestArm_spec ⟨VehicleState.Armed, "", "", initState⟩).1 (Or.inl rfl)).1,
   ⟨((requestArm_spec (initVSM ⟨armRequired, []⟩)).2.1 rfl rfl).1,
    ((requestArm_spec (initVSM ⟨armRequired, []⟩)).2.1 rfl rfl).2.1⟩,
   ((requestArm_spec (initVSM initState)).2.2
     "Arming requires 'IMU' to be enabled" rfl rfl).1⟩

/-- C10: every accepted `requestEmergency(reason)` call emits exactly the
caller's safety alert, then the fixed "EmergencyState entered" alert, then
the state-changed notification into Emergency — in that order. -/
theorem requestEmergency_alert_order (v : VSM) (reason : String)
    (h : (requestEmergency v reason).2.2.isOk = true) :
    (requestEmergency v reason).2.1 =
      [Event.safetyAlert reason, Event.safetyAlert "EmergencyState entered",
       Event.vehicleStateChanged (stateName v.current) "Emergency"] := by
  by_cases h1 : v.current = VehicleState.Emergency
  · exfalso
    revert h
    simp [requestEmergency, isEmergency, isPreflight, beq_iff_eq, h1, reject]
  · by_cases h2 : v.current = VehicleState.Preflight
    · exfalso
      revert h
      simp [requestEmergency, isEmergency, isPreflight, beq_iff_eq, h1, h2,
        reject]
    · simp [requestEmergency, isEmergency, isPreflight, beq_iff_eq, h1, h2,
        transitionTo, entryEvents, stateName]

/-- Witness for C10 at a concrete state: an accepted emergency request from
Flying emits the two safety alerts before the state-changed notification. -/
theorem requestEmergency_alert_order_witness :
    (requestEmergency ⟨VehicleState.Flying, "", "", initState⟩ "low battery").2.2.isOk
      = true ∧
    (requestEmergency ⟨VehicleState.Flying, "", "", initState⟩ "low battery").2.1 =
      [Event.safetyAlert "low battery", Event.safetyAlert "EmergencyState entered",
       Event.vehicleStateChanged (stateName VehicleState.Flying) "Emergency"] :=
  ⟨by decide,
   requestEmergency_alert_order ⟨VehicleState.Flying, "", "", initState⟩
     "low battery" (by decide)⟩

end Drone

namespace Drone

/-- C2: every rejected transition request emits exactly one
transition-rejected notification carrying the command name and the reason
text, and leaves both the current state and the subsystem state untouched. -/
theorem rejected_request_spec (v : VSM) (req : Request)
    (h : (applyRequest v req).2.2.isOk = false) :
    ∃ r, (applyRequest v req).2.1 =
        [Event.transitionRejected (commandName req) r] ∧
      (applyRequest v req).2.2 =
        Except.error (commandName req ++ " rejected: " ++ r) ∧
      (applyRequest v req).1.current = v.current ∧
      (applyRequest v req).1.subsystems = v.subsystems := by
  cases req with
  | arm =>
    by_cases hp : v.current = VehicleState.Preflight
    · rcases hv : validateArmingReadiness v.subsystems with e | u
      · exact ⟨e, by
          simp [applyRequest, requestArm, isPreflight, beq_iff_eq, hp, hv,
            reject, commandName]⟩
      · exfalso
        revert h
        simp [applyRequest, requestArm, isPreflight, beq_iff_eq, hp, hv]
    · exact ⟨"must be in Preflight state", by
        simp [applyRequest, requestArm, isPreflight, beq_iff_eq, hp, reject,
          commandName]⟩
  | disarm =>
    by_cases ha : v.current = VehicleState.Armed
    · exfalso
      revert h
      simp [applyRequest, requestDisarm, isArmed, beq_iff_eq, ha]
    · exact ⟨"must be in Armed state", by
        simp [applyRequest, requestDisarm, isArmed, beq_iff_eq, ha, reject,
          commandName]⟩
  | takeoff =>
    by_cases ha : v.current = VehicleState.Armed
    · by_cases hm : activeFlightMode v.subsystems = ""
      · exact ⟨"no flight mode is active - enable Manual, Stabilize, AltHold, PosHold, Autonomous, or RTL", by
          simp [applyRequest, requestTakeoff, isArmed, beq_iff_eq, ha, hm,
            reject, commandName]⟩
      · exfalso
        revert h
        simp [applyRequest, requestTakeoff, isArmed, beq_iff_eq, ha, hm]
    · exact ⟨"must be in Armed state", by
        simp [applyRequest, requestTakeoff, isArmed, beq_iff_eq, ha, reject,
          commandName]⟩
  | land =>
    by_cases hf : v.current = VehicleState.Flying
    · exfalso
      revert h
      simp [applyRequest, requestLand, isFlying, beq_iff_eq, hf]
    · exact ⟨"must be in Flying state", by
        simp [applyRequest, requestLand, isFlying, beq_iff_eq, hf, reject,
          commandName]⟩
  | landingComplete =>
    by_cases hl : v.current = VehicleState.Landing
    · exfalso
      revert h
      simp [applyRequest, requestLandingComplete, isLanding, beq_iff_eq, hl]
    · exact ⟨"must be in Landing state", by
        simp [applyRequest, requestLandingComplete, isLanding, beq_iff_eq, hl,
          reject, commandName]⟩
  | disarmAfterLanding =>
    by_cases hl : v.current = VehicleState.Landing
    · exfalso
      revert h
      simp [applyRequest, requestDisarmAfterLanding, isLanding, beq_iff_eq, hl]
    · exact ⟨"must be in Landing state", by
        simp [applyRequest, requestDisarmAfterLanding, isLanding, beq_iff_eq,
          hl, reject, commandName]⟩
  | emergency reason =>
    by_cases h1 : v.current = VehicleState.Emergency
    · exact ⟨"already in terminal state", by
        simp [applyRequest, requestEmergency, isEmergency, isPreflight,
          beq_iff_eq, h1, reject, commandName]⟩
    · by_cases h2 : v.current = VehicleState.Preflight
      · exact ⟨"already in terminal state", by
          simp [applyRequest, requestEmergency, isEmergency, isPreflight,
            beq_iff_eq, h1, h2, reject, commandName]⟩
      · exfalso
        revert h
        simp [applyRequest, requestEmergency, isEmergency, isPreflight,
          beq_iff_eq, h1, h2]
  | reset =>
    by_cases he : v.current = VehicleState.Emergency
    · exfalso
      revert h
      simp [applyRequest, requestReset, isEmergency, beq_iff_eq, he]
    · exact ⟨"must be in Emergency state", by
        simp [applyRequest, requestReset, isEmergency, beq_iff_eq, he, reject,
          commandName]⟩

/-- Witness for C2 at a concrete rejected request: disarm from the fresh
Preflight machine is rejected. -/
theorem rejected_request_spec_witness :
    (applyRequest (initVSM initState) Request.disarm).2.2.isOk = false ∧
    (∃ r, (applyRequest (initVSM initState) Request.disarm).2.1 =
        [Event.transitionRejected (commandName Request.disarm) r] ∧
      (applyRequest (initVSM initState) Request.disarm).2.2 =
        Except.error (commandName Request.disarm ++ " rejected: " ++ r) ∧
      (applyRequest (initVSM initState) Request.disarm).1.current =
        (initVSM initState).current ∧
      (applyRequest (initVSM initState) Request.disarm).1.subsystems =
        (initVSM initState).subsystems) :=
  ⟨by decide, rejected_request_spec (initVSM initState) Request.disarm (by decide)⟩

/-- C8: from any Preflight configuration in which the five requests arm,
takeoff, land, landing_complete, disarm are each accepted in order, the
final state is Preflight again: `currentStateName` returns "Preflight" and
`isPreflight` is true. -/
theorem roundTrip_returns_to_preflight (v : VSM)
    (h0 : v.current = VehicleState.Preflight)
    (h1 : (requestArm v).2.2.isOk = true)
    (h2 : (requestTakeoff (requestArm v).1).2.2.isOk = true)
    (h3 : (requestLand (requestTakeoff (requestArm v).1).1).2.2.isOk = true)
    (h4 : (requestLandingComplete
      (requestLand (requestTakeoff (requestArm v).1).1).1).2.2.isOk = true)
    (h5 : (requestDisarm (requestLandingComplete
      (requestLand (requestTakeoff (requestArm v).1).1).1).1).2.2.isOk = true) :
    (requestDisarm (requestLandingComplete
      (requestLand (requestTakeoff (requestArm v).1).1).1).1).1.current =
      VehicleState.Preflight ∧
    currentStateName (requestDisarm (requestLandingComplete
      (requestLand (requestTakeoff (requestArm v).1).1).1).1).1 = "Preflight" ∧
    isPreflight (requestDisarm (requestLandingComplete
      (requestLand (requestTakeoff (requestArm v).1).1).1).1).1 = true := by
  have hc := requestDisarm_ok_current _ h5
  refine ⟨hc, ?_, ?_⟩
  · simp [currentStateName, hc, stateName]
  · simp [isPreflight, hc]

/-- Witness for C8 at a concrete configuration: with the six arm-required
subsystems and the Manual flight mode enabled, the whole round trip is
accepted and ends in Preflight. -/
theorem roundTrip_returns_to_preflight_witness :
    (initVSM ⟨"Manual" :: armRequired, []⟩).current = VehicleState.Preflight ∧
    isPreflight (requestDisarm (requestLandingComplete
      (requestLand (requestTakeoff
        (requestArm (initVSM ⟨"Manual" :: armRequired, []⟩)).1).1).1).1).1 = true :=
  ⟨by decide,
   (roundTrip_returns_to_preflight (initVSM ⟨"Manual" :: armRequired, []⟩)
     (by decide) (by decide) (by decide) (by decide) (by decide)
     (by decide)).2.2⟩

end Drone
